import Mathlib

/-!
Verification of the agentic daily-work automation system
(`Daily_Work_Automation/automate.py`).

This file gives a shallow embedding of the orchestration core: the JSON
values produced by `json.loads`, the four capability agents (Email,
Calendar, Notes, Notification), the daily-summary digest builder and the
meeting-reminder scheduler of `AgenticWorkSystem`.  External collaborators
(the Gmail/Calendar/Docs providers, the Slack client, the Llama gateway,
`json.loads`, base64 decoding and `datetime.fromisoformat`) are passed in
as explicit environment records of functions; a Python exception raised by
a collaborator is modelled as an `Except` error value, and a `try/except`
block becomes a `match` on that value.  Wall-clock time is modelled at
one-second granularity as an `Int` timestamp in the frame of the event's
own time zone, frozen for the duration of one scheduler pass.
-/

/-- Model of a Python value decoded from JSON by `json.loads`
(`None`/`null` is `jnull`; numbers are modelled as integers). -/
inductive JVal where
  | jnull : JVal
  | jbool : Bool → JVal
  | jnum : Int → JVal
  | jstr : String → JVal
  | jarr : List JVal → JVal
  | jobj : List (String × JVal) → JVal

/-- Key lookup in a decoded JSON object (`dict.__getitem__` on the
association list; JSON objects have distinct keys). -/
def lookupKV : List (String × JVal) → String → Option JVal
  | [], _ => none
  | (k, v) :: rest, key => if k == key then some v else lookupKV rest key

/-- Whether a decoded value is a Python `dict` (the only values on which
`.get` is defined; on any other value `.get` raises `AttributeError`). -/
def JVal.isObj : JVal → Bool
  | .jobj _ => true
  | _ => false

/-- Model of `d.get(key, default)` on a decoded JSON `dict`.  Call sites guard with
`isObj`, mirroring the `AttributeError` path on non-dict values. -/
def JVal.getD (v : JVal) (key : String) (dflt : JVal) : JVal :=
  match v with
  | .jobj kvs => (lookupKV kvs key).getD dflt
  | _ => dflt

mutual
/-- Python `str()` of a decoded JSON value, as used by f-string
interpolation (`str(None) = "None"`, `str(True) = "True"`, containers
render in `repr` form; string escaping inside `repr` is not modelled). -/
def pyStr : JVal → String
  | .jnull => "None"
  | .jbool true => "True"
  | .jbool false => "False"
  | .jnum n => toString n
  | .jstr s => s
  | .jarr xs => "[" ++ String.intercalate ", " (pyReprList xs) ++ "]"
  | .jobj kvs => "\x7b" ++ String.intercalate ", " (pyReprKVs kvs) ++ "\x7d"

/-- Python `repr()` of a decoded JSON value (strings quoted). -/
def pyRepr : JVal → String
  | .jstr s => "\x27" ++ s ++ "\x27"
  | v => pyStr v

/-- Rendering of each element of a decoded JSON array in `repr` form. -/
def pyReprList : List JVal → List String
  | [] => []
  | v :: rest => pyRepr v :: pyReprList rest

/-- Rendering of each key/value pair of a decoded JSON object in `repr` form. -/
def pyReprKVs : List (String × JVal) → List String
  | [] => []
  | (k, v) :: rest => ("\x27" ++ k ++ "\x27: " ++ pyRepr v) :: pyReprKVs rest
end

/-- Python string slicing `s[:n]`: the first `n` characters. -/
def pyTake (s : String) (n : Nat) : String := ⟨s.data.take n⟩

/-- Embeds `BaseAgent.get_llm_response`: wraps the chat completion call
(`chat system_prompt prompt`) and converts any provider exception into the
empty string (lines 53-67). -/
def get_llm_response (chat : String → String → Except String String)
    (prompt : String) (system_prompt : String) : String :=
  match chat system_prompt prompt with
  | .ok content => content
  | .error _ => ""

/-! ## Email agent -/

/-- The `EmailSummary` dataclass (lines 22-29).  The dataclass does not enforce
its field annotations; the analysis-derived fields hold whatever Python
value `analysis.get(...)` produced, so they are modelled as `JVal`
(`meeting_info = jnull` models Python `None`). -/
structure EmailSummary where
  sender : String
  subject : String
  summary : JVal
  priority : JVal
  action_required : JVal
  meeting_info : JVal

/-- One MIME part of a Gmail payload: `part['mimeType']` and the
`part['body']['data']` chain, `none` modelling a missing key
(whose access raises `KeyError`). -/
structure MsgPart where
  mimeType : String
  data : Option String

/-- A Gmail message payload: optional `parts` list (`'parts' in payload`),
`payload['mimeType']` and `payload['body']['data']` (both `KeyError` when
absent), and `payload.get('headers', [])` as name/value pairs. -/
structure Payload where
  parts : Option (List MsgPart)
  mimeType : Option String
  bodyData : Option String
  headers : List (String × String)

/-- A fetched Gmail message: `message['payload']`. -/
structure GmailMessage where
  payload : Payload

/-- Embeds `next((h['value'] for h in headers if h['name'] == name), '')`
(lines 109-110). -/
def header_value (headers : List (String × String)) (name : String) : String :=
  match headers.find? (fun h => h.1 == name) with
  | some h => h.2
  | none => ""

/-- External collaborators of `EmailAgent`: the Gmail list/get calls, the
Llama chat completion, `json.loads` (`none` = `json.JSONDecodeError`) and
`base64.urlsafe_b64decode(...).decode('utf-8')` (error = `binascii.Error`
or `UnicodeDecodeError`). -/
structure EmailEnv where
  listMessages : Nat → Except String (List String)
  getMessage : String → Except String GmailMessage
  chat : String → String → Except String String
  jsonLoads : String → Option JVal
  decodeB64 : String → Except String String

/-- Embeds `EmailAgent._extract_email_body` (lines 160-173): prefer the first
`text/plain` part, else decode a top-level `text/plain` body, else `""`;
an error models a raised `KeyError` or decode failure. -/
def extract_email_body (decodeB64 : String → Except String String)
    (payload : Payload) : Except String String :=
  match payload.parts with
  | some parts =>
    match parts.find? (fun p => p.mimeType == "text/plain") with
    | some p =>
      match p.data with
      | some d => decodeB64 d
      | none => .error "KeyError: data"
    | none => .ok ""
  | none =>
    match payload.mimeType with
    | none => .error "KeyError: mimeType"
    | some mt =>
      if mt == "text/plain" then
        match payload.bodyData with
        | some d => decodeB64 d
        | none => .error "KeyError: data"
      else .ok ""

/-- The `summary_prompt` f-string of `_process_email` (lines 116-122),
with the body truncated to 2000 characters. -/
def email_summary_prompt (subject sender body : String) : String :=
  "\n            Subject: " ++ subject ++
  "\n            From: " ++ sender ++
  "\n            Content: " ++ pyTake body 2000 ++
  "  # Truncate for token limits\n            \n            Please provide a concise summary and analysis.\n            "

/-- The email-analysis system prompt (lines 124-132). -/
def email_system_prompt : String :=
  "\n            You are an email analysis assistant. For each email, provide:\n            1. A brief summary (2-3 sentences)\n            2. Priority level (High/Medium/Low)\n            3. Whether action is required (Yes/No)\n            4. If it mentions meetings, extract meeting details\n            \n            Format as JSON with keys: summary, priority, action_required, meeting_info\n            "

/-- Embeds `EmailAgent._process_email` (lines 100-158).  `none` models the outer
`except Exception` handler returning `None`: a failed message fetch, a
`KeyError`/decode failure in body extraction, or an `AttributeError` from
calling `.get` on a non-dict parse result.  A `json.JSONDecodeError`
instead produces the fallback summary (lines 146-154). -/
def process_email (env : EmailEnv) (message_id : String) : Option EmailSummary :=
  match env.getMessage message_id with
  | .error _ => none
  | .ok message =>
    let subject := header_value message.payload.headers "Subject"
    let sender := header_value message.payload.headers "From"
    match extract_email_body env.decodeB64 message.payload with
    | .error _ => none
    | .ok body =>
      let response := get_llm_response env.chat
        (email_summary_prompt subject sender body) email_system_prompt
      match env.jsonLoads response with
      | some analysis =>
        if analysis.isObj then
          some { sender := sender
                 subject := subject
                 summary := analysis.getD "summary" (.jstr "")
                 priority := analysis.getD "priority" (.jstr "Low")
                 action_required := analysis.getD "action_required" (.jbool false)
                 meeting_info := analysis.getD "meeting_info" .jnull }
        else none
      | none =>
        some { sender := sender
               subject := subject
               summary := .jstr (pyTake response 200)
               priority := .jstr "Medium"
               action_required := .jbool true
               meeting_info := .jnull }

/-- Embeds `EmailAgent.execute` (lines 76-98): list unread message ids (a failed
list call yields `[]`), process each, keep the truthy results. -/
def EmailAgent.execute (env : EmailEnv) (max_emails : Nat) : List EmailSummary :=
  match env.listMessages max_emails with
  | .error _ => []
  | .ok messages => messages.filterMap (process_email env)

/-! ## Calendar agent -/

/-- One attendee dict of a calendar event (`a.get('email', '')`). -/
structure Attendee where
  email : Option String
deriving DecidableEq

/-- One conference entry point (`entry.get('entryPointType')`,
`entry.get('uri')`). -/
structure EntryPoint where
  entryPointType : Option String
  uri : Option String
deriving DecidableEq

/-- The `event['start']` dict: optional `dateTime` and `date` keys. -/
structure EventStart where
  dateTime : Option String
  date : Option String
deriving DecidableEq

/-- A fetched calendar event.  `none` fields model missing keys whose
subscript access raises `KeyError`; `conferenceEntryPoints` collapses
`event.get('conferenceData', {}).get('entryPoints', [])`. -/
structure Event where
  id : Option String
  summary : Option String
  start : Option EventStart
  attendees : List Attendee
  description : Option String
  conferenceEntryPoints : List EntryPoint
deriving DecidableEq

/-- External collaborators of `CalendarAgent`: the events list call
(parameterised by `hours_ahead`, which fixes the provider-side time
window) and the Llama chat completion. -/
structure CalEnv where
  listEvents : Nat → Except String (List Event)
  chat : String → String → Except String String

/-- Embeds `CalendarAgent._extract_meet_link` (lines 256-265): the `uri` of the
first entry point whose type is `'video'` (which may itself be absent). -/
def extract_meet_link (event : Event) : Option String :=
  match event.conferenceEntryPoints.find? (fun e => e.entryPointType == some "video") with
  | some e => e.uri
  | none => none

/-- The `analysis_prompt` f-string of `_analyze_meeting` (lines 224-230). -/
def meeting_analysis_prompt (title description : String) (numAttendees : Nat) : String :=
  "\n            Meeting: " ++ title ++
  "\n            Description: " ++ description ++
  "\n            Attendees: " ++ toString numAttendees ++
  " people\n            \n            Analyze this meeting\x27s importance and suggest reminder timing.\n            "

/-- The meeting-analysis system prompt (lines 232-238). -/
def meeting_system_prompt : String :=
  "\n            Analyze meeting importance and provide JSON response with:\n            - importance: High/Medium/Low\n            - reminder_minutes: [15, 60, 1440] for different reminder times\n            - preparation_needed: boolean\n            - meeting_type: one-on-one/team/presentation/other\n            "

/-- The meeting dict built by `_analyze_meeting` (lines 242-250).
`start_time` is `event['start'].get('dateTime', event['start'].get('date'))`
and is `None` (`none`) when both keys are absent. -/
structure MeetingRecord where
  id : String
  title : String
  start_time : Option String
  attendees : List String
  description : String
  analysis : String
  meet_link : Option String
deriving DecidableEq

/-- Embeds `CalendarAgent._analyze_meeting` (lines 215-254).  `none` models the
`except Exception` handler returning `None` after a `KeyError` on
`event['start']` or `event['id']`. -/
def analyze_meeting (env : CalEnv) (event : Event) : Option MeetingRecord :=
  let title := event.summary.getD "No title"
  match event.start with
  | none => none
  | some st =>
    let start_time := match st.dateTime with
      | some d => some d
      | none => st.date
    let attendees := event.attendees
    let description := event.description.getD ""
    let analysis := get_llm_response env.chat
      (meeting_analysis_prompt title description attendees.length) meeting_system_prompt
    match event.id with
    | none => none
    | some eventId =>
      some { id := eventId
             title := title
             start_time := start_time
             attendees := attendees.map (fun a => a.email.getD "")
             description := description
             analysis := analysis
             meet_link := extract_meet_link event }

/-- Embeds `CalendarAgent.execute` (lines 187-213): list events in the lookahead
window (a failed list call yields `[]`), analyze each, keep the truthy
results. -/
def CalendarAgent.execute (env : CalEnv) (hours_ahead : Nat) : List MeetingRecord :=
  match env.listEvents hours_ahead with
  | .error _ => []
  | .ok events => events.filterMap (analyze_meeting env)

/-! ## Notification agent -/

/-- The argument record of one `chat_postMessage` call (lines 398-402). -/
structure SlackPost where
  channel : String
  text : String
  username : String
deriving DecidableEq

/-- The message text sent by `NotificationAgent.execute`: the urgent
marker is prefixed when `urgent` is set (lines 395-396). -/
def notification_message (message : String) (urgent : Bool) : String :=
  if urgent then "\uF8FF\u00FC\u00F6\u00AE URGENT: " ++ message else message

/-- The Slack post built by `NotificationAgent.execute`:
`channel or '#general'` (Python falsy `None`/`""` fall back to the
default channel) with username `'AI Assistant'`. -/
def notification_post (message : String) (channel : Option String) (urgent : Bool) : SlackPost :=
  { channel := match channel with
      | some c => if c == "" then "#general" else c
      | none => "#general"
    text := notification_message message urgent
    username := "AI Assistant" }

/-- Embeds `NotificationAgent.execute` (lines 392-407).  The provider call may
raise `SlackApiError` (the `.error` case of `send`); the handler logs it
and falls through, so the method itself returns normally either way.  The
result records the attempted post and the delivery timestamp (`none` when
the send failed). -/
def NotificationAgent.execute (send : SlackPost → Except String String)
    (message : String) (channel : Option String) (urgent : Bool) :
    Except String (SlackPost × Option String) :=
  let post := notification_post message channel urgent
  match send post with
  | .ok ts => .ok (post, some ts)
  | .error _ => .ok (post, none)

/-! ## Daily summary digest -/

/-- The `e.priority == 'High'` test of line 507 (Python `==` against a
string is `True` only for an equal string value). -/
def isHighPriority (e : EmailSummary) : Bool :=
  match e.priority with
  | .jstr s => s == "High"
  | _ => false

/-- Python f-string rendering of an optional string
(`str(None) = "None"`), used for `meeting['start_time']`. -/
def pyOptStr : Option String → String
  | some s => s
  | none => "None"

/-- The `summary_parts` list built by `AgenticWorkSystem._send_daily_summary`
(lines 501-516): header always; email count and (when any) high-priority
count only when `emails` is non-empty; meeting count plus one bullet per
first-3 meeting only when `meetings` is non-empty. -/
def daily_summary_parts (emails : List EmailSummary)
    (meetings : List MeetingRecord) : List String :=
  let parts := ["\uF8FF\u00FC\u00EC\u00E3 Daily Summary\n"]
  let parts := if emails.isEmpty then parts else
    let parts := parts ++ ["\uF8FF\u00FC\u00EC\u00DF Emails processed: " ++ toString emails.length]
    let high_priority := emails.filter isHighPriority
    if high_priority.isEmpty then parts else
      parts ++ ["\u201A\u00F6\u2020\u00D4\u220F\u00E8 High priority emails: " ++ toString high_priority.length]
  if meetings.isEmpty then parts else
    (parts ++ ["\uF8FF\u00FC\u00EC\u00D6 Upcoming meetings: " ++ toString meetings.length]) ++
      (meetings.take 3).map (fun m =>
        "\u201A\u00C4\u00A2 " ++ m.title ++ " - " ++ pyOptStr m.start_time)

/-- Embeds `AgenticWorkSystem._send_daily_summary` (lines 501-517): join the
parts with newlines and post them, non-urgent, to the default channel. -/
def send_daily_summary (emails : List EmailSummary)
    (meetings : List MeetingRecord) : SlackPost :=
  notification_post (String.intercalate "\n" (daily_summary_parts emails meetings)) none false

/-! ## Reminder scheduler -/

/-- The `reminder_msg` f-string of `_schedule_meeting_reminders`
(lines 528-530): title, whole minutes remaining by floor division of the
delta (in seconds) by 60, and a join line only when `meeting.get('meet_link')`
is truthy (neither `None` nor the empty string). -/
def reminder_message (meeting : MeetingRecord) (delta : Int) : String :=
  let base := "\uF8FF\u00FC\u00EE\u00EE Reminder: \x27" ++ meeting.title ++
    "\x27 starts in " ++ toString (Int.fdiv delta 60) ++ " minutes"
  match meeting.meet_link with
  | some link => if link == "" then base else base ++ "\nJoin: " ++ link
  | none => base

/-- Embeds `AgenticWorkSystem._schedule_meeting_reminders` (lines 519-535),
returning the list of urgent posts emitted during one pass.
`fromisoformat` models `datetime.fromisoformat` after the `'Z' -> '+00:00'`
rewrite, yielding an absolute timestamp in seconds; an error models the
`ValueError` of an unparsable stamp, and a `None` start time models the
`AttributeError` of `None.replace` — the per-meeting handler turns both
into a logged skip.  `now` is the (frozen) clock sample aligned to the
meeting's own zone; the window test is
`timedelta(minutes=15) <= start_time - now <= timedelta(minutes=30)`. -/
def schedule_meeting_reminders (fromisoformat : String → Except String Int)
    (now : Int) (meetings : List MeetingRecord) : List SlackPost :=
  meetings.filterMap (fun meeting =>
    match meeting.start_time with
    | none => none
    | some raw =>
      match fromisoformat (raw.replace "Z" "+00:00") with
      | .error _ => none
      | .ok start_time =>
        if 900 ≤ start_time - now ∧ start_time - now ≤ 1800 then
          some (notification_post (reminder_message meeting (start_time - now)) none true)
        else none)

/-! ## Meeting-notes agent -/

/-- The `MeetingNote` dataclass (lines 31-39).  As with `EmailSummary` the
annotations are unenforced: every field taken from a `.get` call holds the
raw decoded value, so those fields are modelled as `JVal`; `date` is the
`datetime.now()` sample. -/
structure MeetingNote where
  meeting_id : JVal
  title : JVal
  date : Int
  participants : JVal
  summary : JVal
  action_items : JVal
  key_decisions : JVal

/-- External collaborators of `MeetingNotesAgent`: the Llama chat
completion, `json.loads`, the `datetime.now()` sample with its two
`strftime` renderings, and the Docs create/batchUpdate calls
(`createDoc` returns `doc.get('documentId')`, which may be absent). -/
structure NotesEnv where
  chat : String → String → Except String String
  jsonLoads : String → Option JVal
  now : Int
  fmtDate : Int → String
  fmtDateTime : Int → String
  createDoc : String → Except String (Option String)
  batchUpdate : Option String → String → Except String Unit

/-- The `analysis_prompt` f-string of `MeetingNotesAgent.execute`
(lines 278-283). -/
def notes_analysis_prompt (info : JVal) (transcript : String) : String :=
  "\n            Meeting: " ++ pyStr (info.getD "title" (.jstr "Unknown Meeting")) ++
  "\n            Transcript: " ++ transcript ++
  "\n            \n            Please analyze this meeting and provide structured notes.\n            "

/-- The notes system prompt (lines 285-292). -/
def notes_system_prompt : String :=
  "\n            Create structured meeting notes in JSON format with:\n            - summary: Brief overview of the meeting\n            - key_decisions: List of decisions made\n            - action_items: List of action items with owners if mentioned\n            - important_topics: Main topics discussed\n            - next_steps: What happens next\n            "

/-- The fallback notes structure built on `json.JSONDecodeError`
(lines 298-306): raw response truncated to 500 characters plus empty
lists. -/
def notes_fallback (analysis : String) : JVal :=
  .jobj [("summary", .jstr (pyTake analysis 500)),
         ("key_decisions", .jarr []),
         ("action_items", .jarr []),
         ("important_topics", .jarr []),
         ("next_steps", .jarr [])]

/-- All-strings view of a decoded JSON array (`str.join` raises
`TypeError` on any non-string element). -/
def allStrings : List JVal → Option (List String)
  | [] => some []
  | .jstr s :: rest => (allStrings rest).map (fun ss => s :: ss)
  | _ :: _ => none

/-- Model of `', '.join(x)` on a decoded value: joins a list of strings, the
characters of a string, or the keys of a dict; anything else raises
`TypeError` (modelled as the error case). -/
def pyCommaJoin : JVal → Except String String
  | .jarr xs =>
    match allStrings xs with
    | some ss => .ok (String.intercalate ", " ss)
    | none => .error "TypeError"
  | .jstr s => .ok (String.intercalate ", " (s.data.map (fun c => String.singleton c)))
  | .jobj kvs => .ok (String.intercalate ", " (kvs.map (fun kv => kv.1)))
  | _ => .error "TypeError"

/-- Model of `chr(10).join(f"<bullet> {x}" for x in v)`: one bullet line per
element (f-strings `str()`-convert, so any element renders); iterating a
non-iterable raises `TypeError`. -/
def pyBulletLines : JVal → Except String String
  | .jarr xs => .ok (String.intercalate "\n" (xs.map (fun v => "\u201A\u00C4\u00A2 " ++ pyStr v)))
  | .jstr s => .ok (String.intercalate "\n" (s.data.map (fun c => "\u201A\u00C4\u00A2 " ++ String.singleton c)))
  | .jobj kvs => .ok (String.intercalate "\n" (kvs.map (fun kv => "\u201A\u00C4\u00A2 " ++ kv.1)))
  | _ => .error "TypeError"

/-- The `doc_title` f-string of `_save_to_docs` (line 332). -/
def doc_title (env : NotesEnv) (note : MeetingNote) : String :=
  "Meeting Notes - " ++ pyStr note.title ++ " - " ++ env.fmtDate note.date

/-- The `content` f-string of `_save_to_docs` (lines 342-363), evaluating
the embedded joins left to right; an error models a `TypeError` raised
while formatting. -/
def doc_content (env : NotesEnv) (note : MeetingNote) (notes_data : JVal) :
    Except String String :=
  match pyCommaJoin note.participants with
  | .error e => .error e
  | .ok participants =>
    match pyBulletLines note.key_decisions with
    | .error e => .error e
    | .ok decisions =>
      match pyBulletLines note.action_items with
      | .error e => .error e
      | .ok items =>
        match pyBulletLines (notes_data.getD "important_topics" (.jarr [])) with
        | .error e => .error e
        | .ok topics =>
          match pyBulletLines (notes_data.getD "next_steps" (.jarr [])) with
          | .error e => .error e
          | .ok steps =>
            .ok ("\nMEETING NOTES\n\nMeeting: " ++ pyStr note.title ++
              "\nDate: " ++ env.fmtDateTime note.date ++
              "\nParticipants: " ++ participants ++
              "\n\nSUMMARY\n" ++ pyStr note.summary ++
              "\n\nKEY DECISIONS\n" ++ decisions ++
              "\n\nACTION ITEMS\n" ++ items ++
              "\n\nIMPORTANT TOPICS\n" ++ topics ++
              "\n\nNEXT STEPS\n" ++ steps ++
              "\n            ")

/-- Embeds `MeetingNotesAgent._save_to_docs` (lines 328-383): create the
document, format the content, append it; its internal `try/except`
swallows every failure, so the method only reports (via the log) whether
the save completed — returned here as a `Bool`. -/
def save_to_docs (env : NotesEnv) (note : MeetingNote) (notes_data : JVal) : Bool :=
  match env.createDoc (doc_title env note) with
  | .error _ => false
  | .ok docId =>
    match doc_content env note notes_data with
    | .error _ => false
    | .ok content =>
      match env.batchUpdate docId content with
      | .error _ => false
      | .ok _ => true

/-- The analysis/parsing/record-building part of
`MeetingNotesAgent.execute` (lines 277-317), before the save call.
`none` models the outer `except Exception` handler returning `None`
after an `AttributeError` from `.get` on a non-dict `meeting_info` or
parse result. -/
def MeetingNotesAgent.note_of (env : NotesEnv) (transcript : String)
    (info : JVal) : Option (MeetingNote × JVal) :=
  if info.isObj then
    let analysis := get_llm_response env.chat
      (notes_analysis_prompt info transcript) notes_system_prompt
    let notes_data := match env.jsonLoads analysis with
      | some v => v
      | none => notes_fallback analysis
    if notes_data.isObj then
      some ({ meeting_id := info.getD "id" (.jstr "")
              title := info.getD "title" (.jstr "")
              date := env.now
              participants := info.getD "attendees" (.jarr [])
              summary := notes_data.getD "summary" (.jstr "")
              action_items := notes_data.getD "action_items" (.jarr [])
              key_decisions := notes_data.getD "key_decisions" (.jarr []) }, notes_data)
    else none
  else none

/-- Embeds `MeetingNotesAgent.execute` (lines 274-326): build the note, then run
the (failure-swallowing) save step, then return the in-memory note.  The
second component reports whether the save completed. -/
def MeetingNotesAgent.execute (env : NotesEnv) (transcript : String)
    (info : JVal) : Option MeetingNote × Bool :=
  match MeetingNotesAgent.note_of env transcript info with
  | some (note, notes_data) => (some note, save_to_docs env note notes_data)
  | none => (none, false)

/-! ## Workflow orchestrator -/

/-- The urgent notification posted by the `except` clause of
`run_daily_workflow` (lines 496-499). -/
def failure_notification (e : String) : SlackPost :=
  notification_post ("Daily workflow failed: " ++ e) none true

/-- The first exception raised along the four-stage pipeline of
`run_daily_workflow`, if any (a specification-side observer used to state
the stage-isolation property). -/
def workflow_first_error (s1 : Except String (List EmailSummary))
    (s2 : Except String (List MeetingRecord))
    (s3 : List EmailSummary → List MeetingRecord → Except String (List SlackPost))
    (s4 : List MeetingRecord → Except String (List SlackPost)) : Option String :=
  match s1 with
  | .error e => some e
  | .ok emails =>
    match s2 with
    | .error e => some e
    | .ok meetings =>
      match s3 emails meetings with
      | .error e => some e
      | .ok _ =>
        match s4 meetings with
        | .error e => some e
        | .ok _ => none

/-- Embeds `AgenticWorkSystem.run_daily_workflow` (lines 475-499), generic over
the four awaited stage computations (email fetch, calendar fetch, digest
send, reminder pass), each of which may raise; a stage's value carries the
Slack posts it emitted.  The single top-level `except Exception` handler
posts one urgent failure notification (via the Notification agent, whose
own send errors are swallowed) and returns normally; the overall `Except`
is the method's own raise behaviour. -/
def run_daily_workflow (s1 : Except String (List EmailSummary))
    (s2 : Except String (List MeetingRecord))
    (s3 : List EmailSummary → List MeetingRecord → Except String (List SlackPost))
    (s4 : List MeetingRecord → Except String (List SlackPost)) :
    Except String (List SlackPost) :=
  match s1 with
  | .error e => .ok [failure_notification e]
  | .ok emails =>
    match s2 with
    | .error e => .ok [failure_notification e]
    | .ok meetings =>
      match s3 emails meetings with
      | .error e => .ok [failure_notification e]
      | .ok posts3 =>
        match s4 meetings with
        | .error e => .ok (posts3 ++ [failure_notification e])
        | .ok posts4 => .ok (posts3 ++ posts4)

/-- The concrete wiring of the four stages (lines 480-490) with the
default fetch bounds `max_emails = 10` and `hours_ahead = 24`: the agent
executes never raise, stage 3 posts the digest and stage 4 posts the
reminders. -/
def AgenticWorkSystem.run_daily_workflow_wired (emailEnv : EmailEnv)
    (calEnv : CalEnv) (fromisoformat : String → Except String Int)
    (now : Int) : Except String (List SlackPost) :=
  run_daily_workflow
    (.ok (EmailAgent.execute emailEnv 10))
    (.ok (CalendarAgent.execute calEnv 24))
    (fun emails meetings => .ok [send_daily_summary emails meetings])
    (fun meetings => .ok (schedule_meeting_reminders fromisoformat now meetings))

set_option maxRecDepth 16384

/-! ## Concrete test inputs -/

/-- A meeting record as produced by the Calendar agent, with no
video-conference link. -/
def standupMeeting : MeetingRecord :=
  { id := "evt1", title := "Standup", start_time := some "2025-01-01T10:15:00Z",
    attendees := [], description := "", analysis := "", meet_link := none }

/-- A high-priority email summary. -/
def highEmail : EmailSummary :=
  { sender := "a@x.com", subject := "Alert", summary := .jstr "s",
    priority := .jstr "High", action_required := .jbool true, meeting_info := .jnull }

/-- A low-priority email summary. -/
def lowEmail : EmailSummary :=
  { sender := "b@x.com", subject := "FYI", summary := .jstr "s",
    priority := .jstr "Low", action_required := .jbool false, meeting_info := .jnull }

/-- A Gmail message with a plain-text top-level body "B1". -/
def msgOk : GmailMessage :=
  { payload := { parts := none, mimeType := some "text/plain",
                 bodyData := some "B1",
                 headers := [("Subject", "S1"), ("From", "F1")] } }

/-- A second Gmail message with body "B2". -/
def msgB : GmailMessage :=
  { payload := { parts := none, mimeType := some "text/plain",
                 bodyData := some "B2",
                 headers := [("Subject", "S2"), ("From", "F2")] } }

/-- An email environment whose message fetch fails for every id except
"m1" and whose analyses parse to a high-priority record. -/
def emailEnvA : EmailEnv :=
  { listMessages := fun _ => .ok ["m1", "m2"]
    getMessage := fun id => if id = "m1" then .ok msgOk else .error "HttpError"
    chat := fun _ _ => .ok "RESP"
    jsonLoads := fun s => if s = "RESP" then
        some (.jobj [("summary", .jstr "sum1"), ("priority", .jstr "High"),
                     ("action_required", .jbool true), ("meeting_info", .jnull)])
      else none
    decodeB64 := fun s => .ok s }

/-- An email environment whose unread-message listing itself fails. -/
def emailEnvFetchFail : EmailEnv :=
  { listMessages := fun _ => .error "HttpError"
    getMessage := fun _ => .error "HttpError"
    chat := fun _ _ => .ok ""
    jsonLoads := fun _ => none
    decodeB64 := fun s => .ok s }

/-- An email environment holding two unread messages: the analysis of the
first parses to a high-priority record, the analysis of the second is not
valid JSON. -/
def twoEmailEnv : EmailEnv :=
  { listMessages := fun _ => .ok ["m1", "m2"]
    getMessage := fun id =>
      if id = "m1" then .ok msgOk else if id = "m2" then .ok msgB
      else .error "HttpError"
    chat := fun _ user =>
      if user = email_summary_prompt "S1" "F1" "B1" then .ok "RESP" else .ok "garbled"
    jsonLoads := fun s => if s = "RESP" then
        some (.jobj [("summary", .jstr "sum1"), ("priority", .jstr "High"),
                     ("action_required", .jbool true), ("meeting_info", .jnull)])
      else none
    decodeB64 := fun s => .ok s }

/-- An email environment whose analysis parses to a JSON object carrying
none of the four expected keys. -/
def sparseEmailEnv : EmailEnv :=
  { listMessages := fun _ => .ok ["m1"]
    getMessage := fun _ => .ok msgOk
    chat := fun _ _ => .ok "SPARSE"
    jsonLoads := fun s => if s = "SPARSE" then some (.jobj [("other", .jnull)]) else none
    decodeB64 := fun s => .ok s }

/-- A well-formed calendar event. -/
def goodEvent : Event :=
  { id := some "e1", summary := some "Standup",
    start := some { dateTime := some "2025-01-01T10:15:00Z", date := none },
    attendees := [], description := some "", conferenceEntryPoints := [] }

/-- A malformed calendar event with no start field, whose analysis raises
and is skipped. -/
def badEvent : Event :=
  { id := some "e2", summary := some "Broken", start := none,
    attendees := [], description := none, conferenceEntryPoints := [] }

/-- A calendar environment returning one good and one malformed event. -/
def calEnvA : CalEnv :=
  { listEvents := fun _ => .ok [goodEvent, badEvent]
    chat := fun _ _ => .ok "analysis" }

/-- A calendar environment whose event listing itself fails. -/
def calEnvFetchFail : CalEnv :=
  { listEvents := fun _ => .error "HttpError"
    chat := fun _ _ => .ok "" }

/-- A meeting-info dict for the Notes agent. -/
def notesInfoFix : JVal :=
  .jobj [("id", .jstr "meeting123"), ("title", .jstr "Project Review"),
         ("attendees", .jarr [.jstr "john@company.com"])]

/-- A notes environment whose document save succeeds. -/
def notesEnvOk : NotesEnv :=
  { chat := fun _ _ => .ok "notes"
    jsonLoads := fun _ => none
    now := 0
    fmtDate := fun _ => "2025-01-01"
    fmtDateTime := fun _ => "2025-01-01 00:00"
    createDoc := fun _ => .ok (some "doc1")
    batchUpdate := fun _ _ => .ok () }

/-- The same notes environment except that the document-creation call
fails. -/
def notesEnvSaveFail : NotesEnv :=
  { chat := fun _ _ => .ok "notes"
    jsonLoads := fun _ => none
    now := 0
    fmtDate := fun _ => "2025-01-01"
    fmtDateTime := fun _ => "2025-01-01 00:00"
    createDoc := fun _ => .error "HttpError"
    batchUpdate := fun _ _ => .ok () }

/-- A meeting record carrying a video-conference link. -/
def linkedMeeting : MeetingRecord :=
  { id := "evt2", title := "Design Review",
    start_time := some "2025-01-01T10:20:00Z", attendees := [],
    description := "", analysis := "",
    meet_link := some "https://meet.example/abc" }

/-! ## Shape lemmas -/

/-- Non-emptiness of a list as the `isEmpty` flag tested by the code. -/
theorem isEmpty_false_of_ne_nil {α : Type} {l : List α} (h : l ≠ []) :
    l.isEmpty = false := by
  cases l with
  | nil => exact absurd rfl h
  | cons a t => rfl

/-- Case-free description of the `summary_parts` list: header, then the
email block (count plus optional high-priority count) when emails are
non-empty, then the meeting block (count plus first-3 bullets) when
meetings are non-empty. -/
theorem daily_summary_parts_eq (emails : List EmailSummary)
    (meetings : List MeetingRecord) :
    daily_summary_parts emails meetings =
      ["\uF8FF\u00FC\u00EC\u00E3 Daily Summary\n"]
      ++ (if emails.isEmpty then [] else
           ["\uF8FF\u00FC\u00EC\u00DF Emails processed: " ++ toString emails.length]
           ++ (if (emails.filter isHighPriority).isEmpty then [] else
                ["\u201A\u00F6\u2020\u00D4\u220F\u00E8 High priority emails: "
                  ++ toString (emails.filter isHighPriority).length]))
      ++ (if meetings.isEmpty then [] else
           ["\uF8FF\u00FC\u00EC\u00D6 Upcoming meetings: " ++ toString meetings.length]
           ++ (meetings.take 3).map (fun m =>
                "\u201A\u00C4\u00A2 " ++ m.title ++ " - " ++ pyOptStr m.start_time)) := by
  cases he : emails.isEmpty <;>
    cases hf : (emails.filter isHighPriority).isEmpty <;>
    cases hm : meetings.isEmpty <;>
    simp [daily_summary_parts, he, hf, hm]

/-- The reminder message always consists of the fixed preamble, the
title, the minutes part, and a (possibly empty) join-link suffix. -/
theorem reminder_message_data (m : MeetingRecord) (d : Int) :
    ∃ suffix : List Char,
      (reminder_message m d).data =
        "\uF8FF\u00FC\u00EE\u00EE Reminder: \x27".data ++ m.title.data ++
          (("\x27 starts in " ++ toString (Int.fdiv d 60) ++ " minutes").data ++ suffix) := by
  unfold reminder_message
  rcases m.meet_link with _ | link
  · exact ⟨[], by simp [String.data_append, List.append_assoc]⟩
  · by_cases hl : link = ""
    · exact ⟨[], by simp [hl, String.data_append, List.append_assoc]⟩
    · exact ⟨("\nJoin: " ++ link).data, by
        simp [hl, String.data_append, List.append_assoc]⟩

/-! ## Claim C1 -/

/-- Claim C1, counterexample: with 0 emails and 0 meetings the digest text
is exactly the header line; in particular it contains no
"Emails processed" and no "Upcoming meetings" zero-count line, refuting
the claim that the empty digest "still contains ... zero counts". -/
theorem digest_empty_counterexample :
    (send_daily_summary [] []).text = "üìã Daily Summary\n" ∧
    ¬ List.IsInfix "Emails processed".data (send_daily_summary [] []).text.data ∧
    ¬ List.IsInfix "Upcoming meetings".data (send_daily_summary [] []).text.data := by
  refine ⟨rfl, ?_, ?_⟩ <;> decide

/-- Claim C1 (amended): the digest post is always built and sent
(non-urgent, default channel), assembled by joining `summary_parts` with
newlines.  The count lines are included only for non-empty inputs: a
non-empty email list contributes its literal count (and, when at least one
summary has priority `High`, the high-priority count); a non-empty meeting
list contributes its literal count plus one title/start-time bullet for
each of the first 3 meetings in order.  With 0 emails and 0 meetings the
parts degrade to exactly the literal header — no zero-count lines and no
error. -/
theorem digest_construction (emails : List EmailSummary)
    (meetings : List MeetingRecord) :
    send_daily_summary emails meetings =
      notification_post
        (String.intercalate "\n" (daily_summary_parts emails meetings)) none false ∧
    daily_summary_parts [] [] = ["üìã Daily Summary\n"] ∧
    (emails ≠ [] →
      ("üìß Emails processed: " ++ toString emails.length)
        ∈ daily_summary_parts emails meetings) ∧
    (emails ≠ [] → emails.filter isHighPriority ≠ [] →
      ("‚ö†Ô∏è High priority emails: "
          ++ toString (emails.filter isHighPriority).length)
        ∈ daily_summary_parts emails meetings) ∧
    (meetings ≠ [] →
      ("üìÖ Upcoming meetings: " ++ toString meetings.length)
        ∈ daily_summary_parts emails meetings ∧
      ∀ m ∈ meetings.take 3,
        ("‚Ä¢ " ++ m.title ++ " - " ++ pyOptStr m.start_time)
          ∈ daily_summary_parts emails meetings) := by
  refine ⟨rfl, rfl, ?_, ?_, ?_⟩
  · intro h
    have he := isEmpty_false_of_ne_nil h
    rw [daily_summary_parts_eq, he]
    simp
  · intro h hf
    have he := isEmpty_false_of_ne_nil h
    have hf := isEmpty_false_of_ne_nil hf
    rw [daily_summary_parts_eq, he, hf]
    simp
  · intro h
    have hm := isEmpty_false_of_ne_nil h
    constructor
    · rw [daily_summary_parts_eq, hm]
      simp
    · intro m hmem
      have hx : ("‚Ä¢ " ++ m.title ++ " - " ++ pyOptStr m.start_time)
          ∈ (meetings.take 3).map (fun mm =>
              "‚Ä¢ " ++ mm.title ++ " - " ++ pyOptStr mm.start_time) :=
        List.mem_map_of_mem _ hmem
      rw [daily_summary_parts_eq, hm, if_neg Bool.false_ne_true]
      exact List.mem_append_right _ (List.mem_append_right _ hx)

/-- Claim C1, witness for the amended theorem at concrete inputs. -/
theorem digest_construction_witness :
    ([highEmail, lowEmail] ≠ ([] : List EmailSummary)) ∧
    ([standupMeeting] ≠ ([] : List MeetingRecord)) ∧
    ("üìß Emails processed: 2"
      ∈ daily_summary_parts [highEmail, lowEmail] [standupMeeting]) ∧
    ("üìÖ Upcoming meetings: 1"
      ∈ daily_summary_parts [highEmail, lowEmail] [standupMeeting]) := by
  refine ⟨List.cons_ne_nil _ _, List.cons_ne_nil _ _, ?_, ?_⟩
  · exact (digest_construction [highEmail, lowEmail] [standupMeeting]).2.2.1
      (List.cons_ne_nil _ _)
  · exact ((digest_construction [highEmail, lowEmail] [standupMeeting]).2.2.2.2
      (List.cons_ne_nil _ _)).1

/-! ## Claim C2 -/

/-- Claim C2: for a fixed clock sample `now` and any meeting whose start
stamp parses to timestamp `t`, one scheduler pass over that meeting emits
exactly one urgent reminder when
`15 minutes <= t - now <= 30 minutes` (in seconds, both bounds inclusive)
and emits nothing otherwise. -/
theorem reminder_window_emission (f : String → Except String Int)
    (now t : Int) (m : MeetingRecord) (st : String)
    (h1 : m.start_time = some st)
    (h2 : f (st.replace "Z" "+00:00") = .ok t) :
    ((900 ≤ t - now ∧ t - now ≤ 1800) →
      schedule_meeting_reminders f now [m] =
        [notification_post (reminder_message m (t - now)) none true]) ∧
    (¬ (900 ≤ t - now ∧ t - now ≤ 1800) →
      schedule_meeting_reminders f now [m] = []) := by
  constructor <;> intro hw <;>
    simp only [schedule_meeting_reminders, List.filterMap_cons, List.filterMap_nil,
      h1, h2] <;>
    [rw [if_pos hw]; rw [if_neg hw]]

/-- Claim C2, witness: a meeting 20 minutes out triggers exactly one
urgent reminder; 10 minutes or 40 minutes out triggers none. -/
theorem reminder_window_emission_witness :
    schedule_meeting_reminders (fun _ => Except.ok 1200) 0 [standupMeeting] =
      [notification_post (reminder_message standupMeeting (1200 - 0)) none true] ∧
    schedule_meeting_reminders (fun _ => Except.ok 600) 0 [standupMeeting] = [] ∧
    schedule_meeting_reminders (fun _ => Except.ok 2400) 0 [standupMeeting] = [] := by
  refine ⟨?_, ?_, ?_⟩
  · exact (reminder_window_emission (fun _ => Except.ok 1200) 0 1200 standupMeeting
      "2025-01-01T10:15:00Z" rfl rfl).1 (by decide)
  · exact (reminder_window_emission (fun _ => Except.ok 600) 0 600 standupMeeting
      "2025-01-01T10:15:00Z" rfl rfl).2 (by decide)
  · exact (reminder_window_emission (fun _ => Except.ok 2400) 0 2400 standupMeeting
      "2025-01-01T10:15:00Z" rfl rfl).2 (by decide)

/-! ## Claim C7 -/

/-- Claim C7: for a meeting inside the reminder window the emitted urgent
reminder contains the meeting title and the whole minutes remaining
(floor division of the second delta by 60) followed by " minutes", and it
carries a join-link line exactly when the meeting has a (truthy)
video-conference link: with no link (or the falsy empty-string link) the
message is exactly the base line with no join-link line appended, and
with a non-empty link it is exactly the base line followed by the
"\nJoin: " line carrying that link. -/
theorem reminder_content_fields (f : String → Except String Int)
    (now t : Int) (m : MeetingRecord) (st : String)
    (h1 : m.start_time = some st)
    (h2 : f (st.replace "Z" "+00:00") = .ok t)
    (h3 : 900 ≤ t - now) (h4 : t - now ≤ 1800) :
    schedule_meeting_reminders f now [m] =
      [notification_post (reminder_message m (t - now)) none true] ∧
    List.IsInfix m.title.data (reminder_message m (t - now)).data ∧
    List.IsInfix (toString (Int.fdiv (t - now) 60) ++ " minutes").data
      (reminder_message m (t - now)).data ∧
    (m.meet_link = none →
      reminder_message m (t - now) =
        "\uF8FF\u00FC\u00EE\u00EE Reminder: \x27" ++ m.title ++ "\x27 starts in "
          ++ toString (Int.fdiv (t - now) 60) ++ " minutes") ∧
    (∀ l, m.meet_link = some l → l ≠ "" →
      reminder_message m (t - now) =
        "\uF8FF\u00FC\u00EE\u00EE Reminder: \x27" ++ m.title ++ "\x27 starts in "
          ++ toString (Int.fdiv (t - now) 60) ++ " minutes" ++ "\nJoin: " ++ l ∧
      List.IsInfix ("\nJoin: " ++ l).data (reminder_message m (t - now)).data) ∧
    (m.meet_link = some "" →
      reminder_message m (t - now) =
        "\uF8FF\u00FC\u00EE\u00EE Reminder: \x27" ++ m.title ++ "\x27 starts in "
          ++ toString (Int.fdiv (t - now) 60) ++ " minutes") := by
  refine ⟨?_, ?_, ?_, ?_, ?_, ?_⟩
  · simp only [schedule_meeting_reminders, List.filterMap_cons, List.filterMap_nil,
      h1, h2]
    rw [if_pos ⟨h3, h4⟩]
  · obtain ⟨suf, hsuf⟩ := reminder_message_data m (t - now)
    exact ⟨"\uF8FF\u00FC\u00EE\u00EE Reminder: \x27".data,
      ("\x27 starts in " ++ toString (Int.fdiv (t - now) 60) ++ " minutes").data ++ suf,
      by rw [hsuf]⟩
  · obtain ⟨suf, hsuf⟩ := reminder_message_data m (t - now)
    refine ⟨"\uF8FF\u00FC\u00EE\u00EE Reminder: \x27".data ++ m.title.data
      ++ "\x27 starts in ".data, suf, ?_⟩
    rw [hsuf]
    simp [String.data_append, List.append_assoc]
  · intro hnone
    simp [reminder_message, hnone]
  · intro l hl hne
    constructor
    · simp [reminder_message, hl, hne]
    · refine ⟨("\uF8FF\u00FC\u00EE\u00EE Reminder: \x27" ++ m.title ++ "\x27 starts in "
        ++ toString (Int.fdiv (t - now) 60) ++ " minutes").data, [], ?_⟩
      simp [reminder_message, hl, hne, String.data_append, List.append_assoc]
  · intro hempty
    simp [reminder_message, hempty]

/-- Claim C7, witness: a meeting starting in exactly 15 minutes with no
conference entry point yields a reminder containing the title and
"15 minutes" and equal to the base line (no join-link line); a meeting
20 minutes out with a video-conference link yields the base line followed
by the join-link line carrying that link. -/
theorem reminder_content_fields_witness :
    schedule_meeting_reminders (fun _ => Except.ok 900) 0 [standupMeeting] =
      [notification_post (reminder_message standupMeeting (900 - 0)) none true] ∧
    List.IsInfix "Standup".data (reminder_message standupMeeting (900 - 0)).data ∧
    List.IsInfix "15 minutes".data (reminder_message standupMeeting (900 - 0)).data ∧
    reminder_message standupMeeting (900 - 0) =
      "\uF8FF\u00FC\u00EE\u00EE Reminder: \x27Standup\x27 starts in 15 minutes" ∧
    reminder_message linkedMeeting (1200 - 0) =
      "\uF8FF\u00FC\u00EE\u00EE Reminder: \x27Design Review\x27 starts in 20 minutes\nJoin: https://meet.example/abc" ∧
    List.IsInfix ("\nJoin: " ++ "https://meet.example/abc").data
      (reminder_message linkedMeeting (1200 - 0)).data ∧
    schedule_meeting_reminders (fun _ => Except.ok 1200) 0 [linkedMeeting] =
      [notification_post (reminder_message linkedMeeting (1200 - 0)) none true] := by
  obtain ⟨a, b, c, d, _, _⟩ := reminder_content_fields (fun _ => Except.ok 900) 0 900
    standupMeeting "2025-01-01T10:15:00Z" rfl rfl (by decide) (by decide)
  obtain ⟨a2, _, _, _, e2, _⟩ := reminder_content_fields (fun _ => Except.ok 1200) 0 1200
    linkedMeeting "2025-01-01T10:20:00Z" rfl rfl (by decide) (by decide)
  obtain ⟨e2a, e2b⟩ := e2 "https://meet.example/abc" rfl (by decide)
  exact ⟨a, b, c, d rfl, e2a, e2b, a2⟩

/-! ## Claim C9 -/

/-- Claim C9: the reminder check keeps no "already notified" state — it is
a pure function of the meeting list and the clock sample, so two
consecutive passes over the same inputs emit identical notification lists
and every post occurs twice as often across the two passes as in one
(the in-window reminder is produced twice, with no deduplication). -/
theorem reminder_check_stateless (f : String → Except String Int)
    (now : Int) (meetings : List MeetingRecord) (p : SlackPost) :
    schedule_meeting_reminders f now meetings
      = schedule_meeting_reminders f now meetings ∧
    (schedule_meeting_reminders f now meetings
        ++ schedule_meeting_reminders f now meetings).count p
      = 2 * (schedule_meeting_reminders f now meetings).count p := by
  refine ⟨rfl, ?_⟩
  rw [List.count_append]
  omega

/-! ## Claim C3 -/

/-- Claim C3: for both fetch-and-analyze agents, a whole-fetch failure
yields the empty batch (no exception), and a failure confined to one item
(its analysis returning none, with every other item analyzed as before)
yields the batch in which exactly that item is skipped and every other
item's result is present and unchanged, in order. -/
theorem agent_batch_isolation :
    (∀ (env : EmailEnv) (n : Nat) (e : String),
      env.listMessages n = .error e → EmailAgent.execute env n = []) ∧
    (∀ (env env' : EmailEnv) (n : Nat) (ids : List String) (i : String),
      env.listMessages n = .ok ids → env'.listMessages n = .ok ids →
      process_email env' i = none →
      (∀ j ∈ ids, j ≠ i → process_email env' j = process_email env j) →
      EmailAgent.execute env' n =
        ids.filterMap (fun j => if j = i then none else process_email env j)) ∧
    (∀ (env : CalEnv) (hrs : Nat) (e : String),
      env.listEvents hrs = .error e → CalendarAgent.execute env hrs = []) ∧
    (∀ (env env' : CalEnv) (hrs : Nat) (evs : List Event) (ev : Event),
      env.listEvents hrs = .ok evs → env'.listEvents hrs = .ok evs →
      analyze_meeting env' ev = none →
      (∀ x ∈ evs, x ≠ ev → analyze_meeting env' x = analyze_meeting env x) →
      CalendarAgent.execute env' hrs =
        evs.filterMap (fun x => if x = ev then none else analyze_meeting env x)) := by
  refine ⟨?_, ?_, ?_, ?_⟩
  · intro env n e he
    simp only [EmailAgent.execute, he]
  · intro env env' n ids i _ hok' hfail hagree
    simp only [EmailAgent.execute, hok']
    apply List.filterMap_congr
    intro a ha
    by_cases hai : a = i
    · subst hai
      rw [if_pos rfl]
      exact hfail
    · rw [if_neg hai]
      exact hagree a ha hai
  · intro env hrs e he
    simp only [CalendarAgent.execute, he]
  · intro env env' hrs evs ev _ hok' hfail hagree
    simp only [CalendarAgent.execute, hok']
    apply List.filterMap_congr
    intro a ha
    by_cases hai : a = ev
    · subst hai
      rw [if_pos rfl]
      exact hfail
    · rw [if_neg hai]
      exact hagree a ha hai

/-- Claim C3, witness: a failing message list and event list give empty
batches; one failing item ("m2" whose fetch errors; the event with no
start field) is skipped while the sibling item's record is kept. -/
theorem agent_batch_isolation_witness :
    EmailAgent.execute emailEnvFetchFail 10 = [] ∧
    EmailAgent.execute emailEnvA 10 =
      ["m1", "m2"].filterMap
        (fun j => if j = "m2" then none else process_email emailEnvA j) ∧
    CalendarAgent.execute calEnvFetchFail 24 = [] ∧
    CalendarAgent.execute calEnvA 24 =
      [goodEvent, badEvent].filterMap
        (fun x => if x = badEvent then none else analyze_meeting calEnvA x) := by
  obtain ⟨a, b, c, d⟩ := agent_batch_isolation
  exact ⟨a emailEnvFetchFail 10 "HttpError" rfl,
    b emailEnvA emailEnvA 10 ["m1", "m2"] "m2" rfl rfl rfl (fun _ _ _ => rfl),
    c calEnvFetchFail 24 "HttpError" rfl,
    d calEnvA calEnvA 24 [goodEvent, badEvent] badEvent rfl rfl rfl (fun _ _ _ => rfl)⟩

/-! ## Claim C4 -/

/-- Claim C4: `NotificationAgent.execute` catches the provider error of
the post call: for every provider behaviour it returns normally (never an
error), and when the provider raises, the outcome records the attempted
post with no delivery timestamp — the failure never propagates. -/
theorem notification_errors_swallowed (send : SlackPost → Except String String)
    (message : String) (channel : Option String) (urgent : Bool) :
    (∃ r, NotificationAgent.execute send message channel urgent = .ok r) ∧
    (∀ e, send (notification_post message channel urgent) = .error e →
      NotificationAgent.execute send message channel urgent =
        .ok (notification_post message channel urgent, none)) := by
  constructor
  · cases hs : send (notification_post message channel urgent) with
    | error e =>
      exact ⟨(notification_post message channel urgent, none),
        by simp only [NotificationAgent.execute, hs]⟩
    | ok ts =>
      exact ⟨(notification_post message channel urgent, some ts),
        by simp only [NotificationAgent.execute, hs]⟩
  · intro e he
    simp only [NotificationAgent.execute, he]

/-- Claim C4, witness: a provider that always raises still lets the agent
return normally, with the attempted post recorded. -/
theorem notification_errors_swallowed_witness :
    NotificationAgent.execute (fun _ => Except.error "channel_not_found")
        "hello" none false =
      .ok (notification_post "hello" none false, none) :=
  (notification_errors_swallowed (fun _ => Except.error "channel_not_found")
    "hello" none false).2 "channel_not_found" rfl

/-! ## Claim C5 -/

/-- Claim C5: `run_daily_workflow` never raises — it always returns
normally — and whenever any of the four stages raises, the first such
error is caught once at the top level and reported by appending exactly
one urgent failure notification (whose text is the urgent marker plus
"Daily workflow failed: " plus the error) after the posts of the stages
that completed; the run then ends with no retry. -/
theorem workflow_stage_isolation (s1 : Except String (List EmailSummary))
    (s2 : Except String (List MeetingRecord))
    (s3 : List EmailSummary → List MeetingRecord → Except String (List SlackPost))
    (s4 : List MeetingRecord → Except String (List SlackPost)) :
    (∃ posts, run_daily_workflow s1 s2 s3 s4 = .ok posts) ∧
    (∀ e, workflow_first_error s1 s2 s3 s4 = some e →
      ∃ done, run_daily_workflow s1 s2 s3 s4 =
          .ok (done ++ [failure_notification e]) ∧
        (failure_notification e).text =
          "\uF8FF\u00FC\u00F6\u00AE URGENT: " ++ ("Daily workflow failed: " ++ e)) := by
  cases s1 with
  | error e1 =>
    refine ⟨⟨[failure_notification e1], rfl⟩, ?_⟩
    intro e he
    simp only [workflow_first_error] at he
    injection he with he'
    subst he'
    exact ⟨[], rfl, by rfl⟩
  | ok emails =>
    cases s2 with
    | error e2 =>
      refine ⟨⟨[failure_notification e2], rfl⟩, ?_⟩
      intro e he
      simp only [workflow_first_error] at he
      injection he with he'
      subst he'
      exact ⟨[], rfl, by rfl⟩
    | ok meetings =>
      cases hs3 : s3 emails meetings with
      | error e3 =>
        refine ⟨⟨[failure_notification e3],
          by simp only [run_daily_workflow, hs3]⟩, ?_⟩
        intro e he
        simp only [workflow_first_error, hs3] at he
        injection he with he'
        subst he'
        exact ⟨[], by simp only [run_daily_workflow, hs3, List.nil_append], by rfl⟩
      | ok posts3 =>
        cases hs4 : s4 meetings with
        | error e4 =>
          refine ⟨⟨posts3 ++ [failure_notification e4],
            by simp only [run_daily_workflow, hs3, hs4]⟩, ?_⟩
          intro e he
          simp only [workflow_first_error, hs3, hs4] at he
          injection he with he'
          subst he'
          exact ⟨posts3, by simp only [run_daily_workflow, hs3, hs4], by rfl⟩
        | ok posts4 =>
          refine ⟨⟨posts3 ++ posts4,
            by simp only [run_daily_workflow, hs3, hs4]⟩, ?_⟩
          intro e he
          simp only [workflow_first_error, hs3, hs4] at he
          exact absurd he (by simp)

/-- Claim C5, witness: a failing email stage ends the run cleanly with
the single urgent failure notification. -/
theorem workflow_stage_isolation_witness :
    ∃ done, run_daily_workflow (Except.error "boom") (Except.ok [])
        (fun _ _ => Except.ok []) (fun _ => Except.ok []) =
      Except.ok (done ++ [failure_notification "boom"]) ∧
      (failure_notification "boom").text =
        "\uF8FF\u00FC\u00F6\u00AE URGENT: " ++ ("Daily workflow failed: " ++ "boom") :=
  (workflow_stage_isolation (Except.error "boom") (Except.ok [])
    (fun _ _ => Except.ok []) (fun _ => Except.ok [])).2 "boom" rfl

/-! ## Claim C6 -/

/-- Claim C6: when the gateway response for an email fails to parse as
JSON, `_process_email` returns the fallback summary — first 200
characters of the raw response, priority Medium, action required — with
no unhandled failure; and over the two-email environment (one response
parsing to priority High, one unparsable) the batch has length 2 with
exactly those two records. -/
theorem email_parse_fallback (env : EmailEnv) (mid : String)
    (msg : GmailMessage) (body : String)
    (hmsg : env.getMessage mid = .ok msg)
    (hbody : extract_email_body env.decodeB64 msg.payload = .ok body)
    (hparse : env.jsonLoads (get_llm_response env.chat
        (email_summary_prompt (header_value msg.payload.headers "Subject")
          (header_value msg.payload.headers "From") body)
        email_system_prompt) = none) :
    process_email env mid = some
      { sender := header_value msg.payload.headers "From"
        subject := header_value msg.payload.headers "Subject"
        summary := .jstr (pyTake (get_llm_response env.chat
            (email_summary_prompt (header_value msg.payload.headers "Subject")
              (header_value msg.payload.headers "From") body)
            email_system_prompt) 200)
        priority := .jstr "Medium"
        action_required := .jbool true
        meeting_info := .jnull } ∧
    EmailAgent.execute twoEmailEnv 10 =
      [{ sender := "F1", subject := "S1", summary := .jstr "sum1",
         priority := .jstr "High", action_required := .jbool true,
         meeting_info := .jnull },
       { sender := "F2", subject := "S2", summary := .jstr "garbled",
         priority := .jstr "Medium", action_required := .jbool true,
         meeting_info := .jnull }] := by
  constructor
  · simp only [process_email, hmsg, hbody, hparse]
  · rfl

/-- Claim C6, witness: the second message of the two-email environment
(whose response is not JSON) yields the fallback record, and the whole
batch keeps both records. -/
theorem email_parse_fallback_witness :
    process_email twoEmailEnv "m2" = some
      { sender := "F2", subject := "S2", summary := .jstr "garbled",
        priority := .jstr "Medium", action_required := .jbool true,
        meeting_info := .jnull } ∧
    EmailAgent.execute twoEmailEnv 10 =
      [{ sender := "F1", subject := "S1", summary := .jstr "sum1",
         priority := .jstr "High", action_required := .jbool true,
         meeting_info := .jnull },
       { sender := "F2", subject := "S2", summary := .jstr "garbled",
         priority := .jstr "Medium", action_required := .jbool true,
         meeting_info := .jnull }] :=
  email_parse_fallback twoEmailEnv "m2" msgB "B2" rfl rfl rfl

/-! ## Claim C8 -/

/-- Claim C8: the MeetingNote returned by the Notes agent does not depend
on the document-storage collaborator at all: two environments agreeing on
the gateway, the JSON decoder and the clock produce identical returned
notes, whatever their create/append calls do — a persistence failure is
logged (the save flag) but never invalidates or changes the returned
note. -/
theorem notes_persistence_decoupled (env env' : NotesEnv)
    (transcript : String) (info : JVal)
    (hchat : env.chat = env'.chat) (hjson : env.jsonLoads = env'.jsonLoads)
    (hnow : env.now = env'.now) :
    (MeetingNotesAgent.execute env transcript info).1 =
      (MeetingNotesAgent.execute env' transcript info).1 := by
  have hnote : MeetingNotesAgent.note_of env transcript info =
      MeetingNotesAgent.note_of env' transcript info := by
    simp only [MeetingNotesAgent.note_of, hchat, hjson, hnow]
  simp only [MeetingNotesAgent.execute, hnote]
  cases MeetingNotesAgent.note_of env' transcript info with
  | none => rfl
  | some p =>
    obtain ⟨note, nd⟩ := p
    rfl

/-- Claim C8, witness: with a failing document-creation call the save
step reports failure, yet the returned note equals the one returned when
the save succeeds. -/
theorem notes_persistence_decoupled_witness :
    (MeetingNotesAgent.execute notesEnvOk "transcript" notesInfoFix).1 =
      (MeetingNotesAgent.execute notesEnvSaveFail "transcript" notesInfoFix).1 ∧
    (MeetingNotesAgent.execute notesEnvSaveFail "transcript" notesInfoFix).2 = false ∧
    (MeetingNotesAgent.execute notesEnvSaveFail "transcript" notesInfoFix).1 = some
      { meeting_id := .jstr "meeting123", title := .jstr "Project Review",
        date := 0, participants := .jarr [.jstr "john@company.com"],
        summary := .jstr "notes", action_items := .jarr [],
        key_decisions := .jarr [] } :=
  ⟨notes_persistence_decoupled notesEnvOk notesEnvSaveFail "transcript"
      notesInfoFix rfl rfl rfl,
    rfl, rfl⟩

/-! ## Claim C10 -/

/-- Claim C10: when the gateway response parses as a JSON object, the
returned summary is fully populated; every expected key that is missing
falls back to its missing-key default — summary "", priority "Low",
action_required false, meeting_info None — and these defaults differ from
the parse-failure fallback's Medium / true. -/
theorem email_missing_key_defaults (env : EmailEnv) (mid : String)
    (msg : GmailMessage) (body : String) (kvs : List (String × JVal))
    (hmsg : env.getMessage mid = .ok msg)
    (hbody : extract_email_body env.decodeB64 msg.payload = .ok body)
    (hparse : env.jsonLoads (get_llm_response env.chat
        (email_summary_prompt (header_value msg.payload.headers "Subject")
          (header_value msg.payload.headers "From") body)
        email_system_prompt) = some (JVal.jobj kvs)) :
    ∃ s : EmailSummary, process_email env mid = some s ∧
      s.sender = header_value msg.payload.headers "From" ∧
      s.subject = header_value msg.payload.headers "Subject" ∧
      (lookupKV kvs "summary" = none → s.summary = JVal.jstr "") ∧
      (lookupKV kvs "priority" = none → s.priority = JVal.jstr "Low") ∧
      (lookupKV kvs "action_required" = none → s.action_required = JVal.jbool false) ∧
      (lookupKV kvs "meeting_info" = none → s.meeting_info = JVal.jnull) ∧
      JVal.jstr "Low" ≠ JVal.jstr "Medium" ∧
      JVal.jbool false ≠ JVal.jbool true := by
  refine ⟨{ sender := header_value msg.payload.headers "From"
            subject := header_value msg.payload.headers "Subject"
            summary := (JVal.jobj kvs).getD "summary" (.jstr "")
            priority := (JVal.jobj kvs).getD "priority" (.jstr "Low")
            action_required := (JVal.jobj kvs).getD "action_required" (.jbool false)
            meeting_info := (JVal.jobj kvs).getD "meeting_info" .jnull },
    ?_, rfl, rfl, ?_, ?_, ?_, ?_, ?_, ?_⟩
  · simp only [process_email, hmsg, hbody, hparse, JVal.isObj, if_true]
  · intro h
    simp only [JVal.getD, h, Option.getD_none]
  · intro h
    simp only [JVal.getD, h, Option.getD_none]
  · intro h
    simp only [JVal.getD, h, Option.getD_none]
  · intro h
    simp only [JVal.getD, h, Option.getD_none]
  · intro h
    injection h with h'
    exact absurd h' (by decide)
  · intro h
    injection h with h'
    exact absurd h' (by decide)

/-- Claim C10, witness for an object carrying none of the expected
keys. -/
theorem email_missing_key_defaults_witness :
    ∃ s : EmailSummary, process_email sparseEmailEnv "m1" = some s ∧
      s.sender = header_value msgOk.payload.headers "From" ∧
      s.subject = header_value msgOk.payload.headers "Subject" ∧
      (lookupKV [("other", JVal.jnull)] "summary" = none → s.summary = JVal.jstr "") ∧
      (lookupKV [("other", JVal.jnull)] "priority" = none → s.priority = JVal.jstr "Low") ∧
      (lookupKV [("other", JVal.jnull)] "action_required" = none →
        s.action_required = JVal.jbool false) ∧
      (lookupKV [("other", JVal.jnull)] "meeting_info" = none →
        s.meeting_info = JVal.jnull) ∧
      JVal.jstr "Low" ≠ JVal.jstr "Medium" ∧
      JVal.jbool false ≠ JVal.jbool true :=
  email_missing_key_defaults sparseEmailEnv "m1" msgOk "B1"
    [("other", JVal.jnull)] rfl rfl rfl
